import Mathlib

/-!
Shallow embedding of the ACE-RISCV security monitor core: the confidential
control flow (src/security-monitor/src/confidential_flow/control_flow/mod.rs),
shared-page validation (src/security-monitor/src/core/page_allocator/shared_page.rs)
and confidential-VM creation
(src/security-monitor/src/non_confidential_flow/handlers/convert_to_confidential_vm.rs).

Rust functions become Lean functions; mutable-reference state becomes explicit state
passing; fallible Rust code (Result) becomes Except; functions that panic or
never return are embedded as functions returning Option or an explicit
outcome type. Types whose definitions are outside the given sources
(MemoryLayout, ConfidentialHart internals, ControlData) are modelled from the
specification, as marked in their doc comments.
-/

namespace AceRiscv

/-- Error taxonomy of the security monitor. Modelled from the spec: the
concrete Error enum is not among the given sources; the spec (section 7)
lists the recoverable error classes used here. -/
inductive Error where
  | PendingRequest
  | AddressNotInNonConfidentialMemory
  | ReachedMaxNumberOfVms
  | InvalidMemoryLayout
  | InterHartRequestQueueFull
  | IpiDeliveryFailure
  | InvalidLifecycleTransition
  | VmNotFound
deriving DecidableEq, Repr

/-! ## Memory layout and shared pages -/

/-- Page sizes supported by the memory protector. The PageSize type is not
among the given sources; modelled from the spec (section 4.6): a page size
in bytes, with the usual RISC-V page granularities. -/
inductive PageSize where
  | Size4KiB
  | Size2MiB
  | Size1GiB
deriving DecidableEq, Repr

def PageSize.in_bytes : PageSize → Nat
  | .Size4KiB => 4096
  | .Size2MiB => 2097152
  | .Size1GiB => 1073741824

/-- Modelled from the spec: the process-wide memory-layout descriptor
(section 6, memory-layout boundary) that owns the bounds of non-confidential
memory; this core only calls its range check and offset operation.
Non-confidential memory is the half-open range
[non_confidential_memory_start, non_confidential_memory_end). -/
structure MemoryLayout where
  non_confidential_memory_start : Nat
  non_confidential_memory_end : Nat
deriving DecidableEq, Repr

/-- Modelled from the spec: an address is a valid non-confidential-memory
address when it lies within the layout's non-confidential range. -/
def MemoryLayout.is_in_non_confidential_range (layout : MemoryLayout) (address : Nat) : Bool :=
  decide (layout.non_confidential_memory_start ≤ address ∧
          address < layout.non_confidential_memory_end)

/-- Modelled from the spec: constructor of NonConfidentialMemoryAddress; it
succeeds returning the validated address exactly when the raw address is in
the non-confidential range, and fails otherwise. -/
def NonConfidentialMemoryAddress.new (layout : MemoryLayout) (address : Nat) :
    Except Error Nat :=
  if layout.is_in_non_confidential_range address then .ok address
  else .error .AddressNotInNonConfidentialMemory

/-- Modelled from the spec: MemoryLayout::non_confidential_address_at_offset
computes the address at the given byte offset and checks that it still lies
in non-confidential memory. -/
def MemoryLayout.non_confidential_address_at_offset (layout : MemoryLayout)
    (address : Nat) (offset_in_bytes : Nat) : Except Error Nat :=
  NonConfidentialMemoryAddress.new layout (address + offset_in_bytes)

/-- Request of a confidential VM to share a page with the hypervisor,
carrying the guest-chosen page size and the confidential-VM virtual address
the shared page will be mapped at. The SharePageRequest type is not among
the given sources; modelled from the spec and its uses in SharedPage::new. -/
structure SharePageRequest where
  page_size : PageSize
  confidential_vm_virtual_address : Nat
deriving DecidableEq, Repr

/-- Translation of the SharedPage struct (shared_page.rs): a validated
hypervisor address in non-confidential memory, the confidential-VM virtual
address, and the page size. -/
structure SharedPage where
  hypervisor_address : Nat
  confidential_vm_virtual_address : Nat
  page_size : PageSize
deriving DecidableEq, Repr

/-- Translation of SharedPage::new (shared_page.rs lines 28-38): validate the
start address, then probe the offset at page_size.in_bytes - 1, then build
the SharedPage from the validated address and the request. -/
def SharedPage.new (layout : MemoryLayout) (raw_hypervisor_address : Nat)
    (request : SharePageRequest) : Except Error SharedPage :=
  match NonConfidentialMemoryAddress.new layout raw_hypervisor_address with
  | .error e => .error e
  | .ok hypervisor_address =>
    match layout.non_confidential_address_at_offset hypervisor_address
        (request.page_size.in_bytes - 1) with
    | .error e => .error e
    | .ok _ =>
      .ok { hypervisor_address := hypervisor_address,
            confidential_vm_virtual_address := request.confidential_vm_virtual_address,
            page_size := request.page_size }

/-- Translation of SharedPage::non_confidential_address. -/
def SharedPage.non_confidential_address (p : SharedPage) : Nat :=
  p.hypervisor_address

/-- Spec-side statement, written from the words of the spec for comparison:
the whole range [address, address + size) lies within non-confidential
memory. -/
def rangeInNonConfidentialMemory (layout : MemoryLayout) (address size : Nat) : Prop :=
  layout.non_confidential_memory_start ≤ address ∧
  address + size ≤ layout.non_confidential_memory_end

lemma PageSize.in_bytes_pos (s : PageSize) : 0 < s.in_bytes := by
  cases s <;> simp [PageSize.in_bytes]

/-! ## Hart state, lifecycle, requests and transformations -/

/-- Identifier of a confidential VM in the Control Data registry. -/
structure ConfidentialVmId where
  id : Nat
deriving DecidableEq, Repr

/-- Lifecycle states of a confidential hart. Modelled from the spec
(section 4.5); Shutdown is terminal. -/
inductive HartLifecycleState where
  | Started
  | Suspended
  | Stopped
  | Shutdown
deriving DecidableEq, Repr

/-- Parameters of an SBI HSM hart-suspend call. Modelled from the spec: a
suspend request carries suspend parameters. -/
structure SbiHsmHartSuspend where
  suspend_type : Nat
  resume_address : Nat
deriving DecidableEq, Repr

/-- Kinds of requests one confidential hart can queue for a sibling hart.
The concrete InterHartRequest enum is outside the given sources; modelled
from the spec (sections 3 and 4.4): a tagged variant (physical IPI, remote
fence variants, hart-start command). -/
inductive InterHartRequestKind where
  | SbiIpi
  | SbiRemoteFenceI
  | SbiRemoteSfenceVma
  | SbiRemoteSfenceVmaAsid
  | SbiHsmHartStart
deriving DecidableEq, Repr

/-- An inter-hart request: a kind together with the ids of the target harts
within the same VM. Modelled from the spec (section 4.4). -/
structure InterHartRequest where
  kind : InterHartRequestKind
  targets : List Nat
deriving DecidableEq, Repr

/-- Pending-request slot contents: which outbound request this hart awaits a
result for. Variants are those consumed in
ConfidentialFlow::resume_confidential_hart_execution (mod.rs 120-133). -/
inductive PendingRequest where
  | SbiRequest
  | GuestLoadPageFault (request : Nat)
  | GuestStorePageFault (request : Nat)
  | SharePage (request : SharePageRequest)
  | SbiHsmHartStart
  | SbiHsmHartStartPending
deriving DecidableEq, Repr

/-- Transformations applied to a confidential hart when exiting the monitor
towards the confidential VM. The variants SbiHsmHartStart,
SbiHsmHartStartPending and Resume appear in mod.rs; the remaining variants
are modelled from the spec: a transformation derived from an inter-hart
request (section 4.4) and a transformation derived from a recoverable error
(section 7). -/
inductive ExposeToConfidentialVm where
  | InterHartTransformation (request : InterHartRequest)
  | SbiHsmHartStart
  | SbiHsmHartStartPending
  | Resume
  | SbiResult (code : Nat)
  | ErrorTransformation (e : Error)
deriving DecidableEq, Repr

/-- Modelled from the spec (section 4.4): on application, an inter-hart
request is converted into a hart-local state transformation. -/
def InterHartRequest.into_expose_to_confidential_vm (r : InterHartRequest) :
    ExposeToConfidentialVm :=
  .InterHartTransformation r

/-- Modelled from the spec (section 7): a recoverable error is converted
into a result transformation handed back to the confidential hart. -/
def Error.into_confidential_transformation (e : Error) : ExposeToConfidentialVm :=
  .ErrorTransformation e

/-- Per-virtual-core state. The ConfidentialHart struct is outside the given
sources; modelled from the spec (section 3): back-reference to the owning VM
(none exactly for the dummy hart), hart id, lifecycle state, saved
architectural registers, and the single pending-request slot. The saved
register file is summarised by the initial register contents together with
the ordered list of transformations applied to the hart so far (most recent
last), which is what the ordering and frame claims observe. -/
structure ConfidentialHart where
  confidential_vm_id : Option ConfidentialVmId
  confidential_hart_id : Nat
  lifecycle_state : HartLifecycleState
  regs : List Nat
  pending_request : Option PendingRequest
  applied_transformations : List ExposeToConfidentialVm
deriving DecidableEq, Repr

/-- Modelled from the spec (section 3): the dummy hart is the sentinel held
by a hardware hart when no confidential hart is assigned; it has no owning
VM. -/
def ConfidentialHart.is_dummy (h : ConfidentialHart) : Bool :=
  h.confidential_vm_id.isNone

/-- Modelled from the spec (section 6, transformation protocol): applying a
transformation records the state change on the hart. -/
def ConfidentialHart.apply (h : ConfidentialHart) (t : ExposeToConfidentialVm) :
    ConfidentialHart :=
  { h with applied_transformations := h.applied_transformations ++ [t] }

/-- Modelled from the spec (section 3): the pending request is consumed
(taken, not peeked) exactly once when the hart resumes. -/
def ConfidentialHart.take_request (h : ConfidentialHart) :
    Option PendingRequest × ConfidentialHart :=
  (h.pending_request, { h with pending_request := none })

/-- Modelled from the spec (sections 3 and 4.1): at most one outstanding
pending request; recording fails when the slot is already occupied. -/
def ConfidentialHart.set_pending_request (h : ConfidentialHart) (r : PendingRequest) :
    Except Error ConfidentialHart :=
  if h.pending_request.isSome then .error .PendingRequest
  else .ok { h with pending_request := some r }

/-- Modelled from the spec (section 4.5): Started to Suspended on a suspend
request; any other current state is an illegal transition and fails with a
recoverable error, leaving the state unchanged. -/
def ConfidentialHart.transition_from_started_to_suspended (h : ConfidentialHart)
    (_request : SbiHsmHartSuspend) : Except Error ConfidentialHart :=
  if h.lifecycle_state = .Started then .ok { h with lifecycle_state := .Suspended }
  else .error .InvalidLifecycleTransition

/-- Modelled from the spec (section 4.5): Started to Stopped on a stop
request. -/
def ConfidentialHart.transition_from_started_to_stopped (h : ConfidentialHart) :
    Except Error ConfidentialHart :=
  if h.lifecycle_state = .Started then .ok { h with lifecycle_state := .Stopped }
  else .error .InvalidLifecycleTransition

/-- Modelled from the spec (section 4.5): Suspended to Started on a resume
command. -/
def ConfidentialHart.transition_from_suspended_to_started (h : ConfidentialHart) :
    Except Error ConfidentialHart :=
  if h.lifecycle_state = .Suspended then .ok { h with lifecycle_state := .Started }
  else .error .InvalidLifecycleTransition

/-- Modelled from the spec (section 4.5): any non-terminal state moves to
Shutdown; Shutdown has no outgoing transition and each transition is
validated against the current state. -/
def ConfidentialHart.transition_to_shutdown (h : ConfidentialHart) :
    Except Error ConfidentialHart :=
  if h.lifecycle_state = .Shutdown then .error .InvalidLifecycleTransition
  else .ok { h with lifecycle_state := .Shutdown }

/-! ## Hardware harts and the Control Data registry -/

/-- Monitor-side context of one physical core. The HardwareHart struct is
outside the given sources; modelled from the spec (section 3) and its uses
in mod.rs: the currently assigned confidential hart (dummy when none), the
live mscratch value, the stashed mscratch value that swap_mscratch exchanges
it with, and the result value the hypervisor supplied for this hart's
outstanding request. -/
structure HardwareHart where
  confidential_hart : ConfidentialHart
  mscratch : Nat
  previous_mscratch : Nat
  hypervisor_result : Nat
deriving DecidableEq, Repr

/-- Modelled from the spec (section 4.4) and the comment in mod.rs 152-158:
exchange the live mscratch value with the stashed one expected by the
underlying firmware layer. -/
def HardwareHart.swap_mscratch (h : HardwareHart) : HardwareHart :=
  { h with mscratch := h.previous_mscratch, previous_mscratch := h.mscratch }

/-- Placeholder measurement value of a confidential VM. Modelled from the
spec: measurement slots are allocated as placeholders at VM creation. -/
structure ConfidentialVmMeasurement where
  value : Nat
deriving DecidableEq, Repr

def ConfidentialVmMeasurement.empty : ConfidentialVmMeasurement := ⟨0⟩

/-- Boot-time architectural state of a VM hart, as supplied by the
hypervisor in a conversion request. Modelled from the spec (section 4.7):
boot register contents plus whether the state describes a valid memory
layout for the memory protector (the protector itself is an external
collaborator specified only at its interface). -/
structure HartArchitecturalState where
  regs : List Nat
  valid_address_translation : Bool
deriving DecidableEq, Repr

/-- The memory protector of a confidential VM, specified only at its
interface. Modelled from the spec (section 4.7). -/
structure ConfidentialVmMemoryProtector where
  vm_state : HartArchitecturalState
deriving DecidableEq, Repr

/-- Modelled from the spec (section 4.7): build the initial memory protector
from the requested VM state; fails with a recoverable error if the memory
layout described by the state is invalid. -/
def ConfidentialVmMemoryProtector.from_vm_state (s : HartArchitecturalState) :
    Except Error ConfidentialVmMemoryProtector :=
  if s.valid_address_translation then .ok { vm_state := s }
  else .error .InvalidMemoryLayout

/-- Modelled from the spec (section 4.4): every per-hart inter-hart request
queue has a bounded capacity; exceeding it is a recoverable error. -/
def INTER_HART_REQUEST_QUEUE_CAPACITY : Nat := 16

/-- One confidential VM record in the registry. The ConfidentialVm struct is
outside the given sources; modelled from the spec (section 3): its harts,
the per-hart inter-hart request queues (indexed by confidential hart id),
measurement values, and the memory protector. -/
structure ConfidentialVm where
  id : ConfidentialVmId
  confidential_harts : List ConfidentialHart
  inter_hart_requests : List (List InterHartRequest)
  measurements : List ConfidentialVmMeasurement
  memory_protector : ConfidentialVmMemoryProtector
deriving DecidableEq, Repr

/-- Modelled from the spec (section 4.7): a fresh VM record with one empty
inter-hart request queue per hart. -/
def ConfidentialVm.new (id : ConfidentialVmId) (harts : List ConfidentialHart)
    (measurements : List ConfidentialVmMeasurement)
    (protector : ConfidentialVmMemoryProtector) : ConfidentialVm :=
  { id := id, confidential_harts := harts,
    inter_hart_requests := harts.map (fun _ => []),
    measurements := measurements, memory_protector := protector }

/-- Modelled from the spec (section 4.4): enqueue the request onto the queue
of every target hart; delivery to an invalid target or a queue at capacity
is a recoverable error. -/
def ConfidentialVm.broadcast_inter_hart_request (vm : ConfidentialVm)
    (r : InterHartRequest) : Except Error ConfidentialVm :=
  r.targets.foldlM
    (fun vm target =>
      match vm.inter_hart_requests.get? target with
      | none => .error .IpiDeliveryFailure
      | some q =>
        if q.length < INTER_HART_REQUEST_QUEUE_CAPACITY then
          .ok { vm with inter_hart_requests := vm.inter_hart_requests.set target (q ++ [r]) }
        else .error .InterHartRequestQueueFull)
    vm

/-- The process-wide Control Data registry. The ControlData struct is
outside the given sources; modelled from the spec (sections 2 and 3): it
maps confidential-VM ids to VM records and allocates fresh unique ids (a
counter, so an id is never reused). -/
structure ControlData where
  next_id : Nat
  confidential_vms : List (ConfidentialVmId × ConfidentialVm)
deriving DecidableEq, Repr

/-- Modelled from the spec (section 3): registry lookup by VM id. -/
def ControlData.lookup (cd : ControlData) (vm_id : ConfidentialVmId) :
    Option ConfidentialVm :=
  (cd.confidential_vms.find? (fun p => p.1 = vm_id)).map (fun p => p.2)

/-- Modelled from the spec (section 3): replace the record of the given VM
id, leaving the rest of the registry unchanged. -/
def ControlData.update_vm (cd : ControlData) (vm_id : ConfidentialVmId)
    (vm : ConfidentialVm) : ControlData :=
  { cd with confidential_vms :=
      cd.confidential_vms.map (fun p => if p.1 = vm_id then (p.1, vm) else p) }

/-- Modelled from the spec (sections 3 and 7): allocate a fresh unique VM
id; fails with a recoverable error on id exhaustion. -/
def ControlData.unique_id (cd : ControlData) :
    Except Error (ConfidentialVmId × ControlData) :=
  if cd.next_id < 18446744073709551616 then
    .ok (⟨cd.next_id⟩, { cd with next_id := cd.next_id + 1 })
  else .error .ReachedMaxNumberOfVms

/-- Modelled from the spec (section 4.7): insert the new VM record and
return its id. -/
def ControlData.insert_confidential_vm (cd : ControlData) (vm : ConfidentialVm) :
    ConfidentialVmId × ControlData :=
  (vm.id, { cd with confidential_vms := cd.confidential_vms ++ [(vm.id, vm)] })

/-- Combined state threaded through the confidential flow: the hardware hart
owned by the flow and the global Control Data registry. -/
structure MonitorState where
  hardware_hart : HardwareHart
  control_data : ControlData
deriving DecidableEq, Repr

/-! ## The confidential flow (mod.rs) -/

/-- Guard over a hardware hart representing the confidential phase of the
control-flow state machine (mod.rs 25-27). -/
structure ConfidentialFlow where
  hardware_hart : HardwareHart
deriving DecidableEq, Repr

/-- Translation of ConfidentialFlow::create (mod.rs 35-38): the assertion
that the assigned confidential hart is not the dummy hart; an assertion
failure is a panic, embedded as none. -/
def ConfidentialFlow.create (hardware_hart : HardwareHart) : Option ConfidentialFlow :=
  if hardware_hart.confidential_hart.is_dummy then none
  else some { hardware_hart := hardware_hart }

/-- Translation of ConfidentialFlow::exit_to_confidential_hart (mod.rs
138-142) as a state function: apply the transformation to the confidential
hart; the subsequent reload of volatile control state and the transfer of
control never return. -/
def ConfidentialFlow.exit_to_confidential_hart (st : MonitorState)
    (transformation : ExposeToConfidentialVm) : MonitorState :=
  { st with hardware_hart :=
      { st.hardware_hart with
        confidential_hart := st.hardware_hart.confidential_hart.apply transformation } }

/-- Outcome of ConfidentialFlow::set_pending_request (mod.rs 229-234):
either the flow is returned with the request recorded, or the flow exits to
the confidential hart with an error-derived transformation (terminal, no
caller left to return to). -/
inductive SetPendingOutcome where
  | returned (st : MonitorState)
  | exited (transformation : ExposeToConfidentialVm) (st : MonitorState)
deriving DecidableEq, Repr

/-- Translation of ConfidentialFlow::set_pending_request (mod.rs 229-234):
record the pending request on the confidential hart; on failure exit to the
confidential hart with the error converted into a confidential-side
transformation instead of propagating the error. -/
def ConfidentialFlow.set_pending_request (st : MonitorState) (request : PendingRequest) :
    SetPendingOutcome :=
  match st.hardware_hart.confidential_hart.set_pending_request request with
  | .error error =>
    .exited error.into_confidential_transformation
      (ConfidentialFlow.exit_to_confidential_hart st error.into_confidential_transformation)
  | .ok hart =>
    .returned { st with hardware_hart := { st.hardware_hart with confidential_hart := hart } }

/-- Translation of ConfidentialFlow::suspend_confidential_hart (mod.rs
192-194): delegate the Started-to-Suspended transition to the confidential
hart; on error the state is unchanged. -/
def ConfidentialFlow.suspend_confidential_hart (st : MonitorState)
    (request : SbiHsmHartSuspend) : Except Error Unit × MonitorState :=
  match st.hardware_hart.confidential_hart.transition_from_started_to_suspended request with
  | .ok hart => (.ok (), { st with hardware_hart := { st.hardware_hart with confidential_hart := hart } })
  | .error e => (.error e, st)

/-- Translation of ConfidentialFlow::stop_confidential_hart (mod.rs
198-200). -/
def ConfidentialFlow.stop_confidential_hart (st : MonitorState) :
    Except Error Unit × MonitorState :=
  match st.hardware_hart.confidential_hart.transition_from_started_to_stopped with
  | .ok hart => (.ok (), { st with hardware_hart := { st.hardware_hart with confidential_hart := hart } })
  | .error e => (.error e, st)

/-- Translation of ConfidentialFlow::start_confidential_hart_after_suspend
(mod.rs 204-206). -/
def ConfidentialFlow.start_confidential_hart_after_suspend (st : MonitorState) :
    Except Error Unit × MonitorState :=
  match st.hardware_hart.confidential_hart.transition_from_suspended_to_started with
  | .ok hart => (.ok (), { st with hardware_hart := { st.hardware_hart with confidential_hart := hart } })
  | .error e => (.error e, st)

/-- Translation of ConfidentialFlow::shutdown_confidential_hart (mod.rs
210-212): the source delegation returns unit and discards the result of the
underlying validated shutdown transition (the transition itself is modelled
from the spec, section 4.5), so only the state effect remains; a validation
error cannot surface at this delegation. -/
def ConfidentialFlow.shutdown_confidential_hart (st : MonitorState) : MonitorState :=
  match st.hardware_hart.confidential_hart.transition_to_shutdown with
  | .ok hart => { st with hardware_hart := { st.hardware_hart with confidential_hart := hart } }
  | .error _ => st

/-- Translation of ConfidentialFlow::broadcast_inter_hart_request (mod.rs
150-161): look up the owning VM under the registry lock; swap mscratch to
the value expected by the firmware layer, run the broadcast on the VM, swap
mscratch back, and return the broadcast's result. The flow's
confidential_vm_id accessor panics on a dummy hart, embedded as none. -/
def ConfidentialFlow.broadcast_inter_hart_request (st : MonitorState)
    (inter_hart_request : InterHartRequest) :
    Option (Except Error Unit × MonitorState) :=
  match st.hardware_hart.confidential_hart.confidential_vm_id with
  | none => none
  | some vm_id =>
    match st.control_data.lookup vm_id with
    | none => some (.error .VmNotFound, st)
    | some confidential_vm =>
      let hart_after_first_swap := st.hardware_hart.swap_mscratch
      let result := confidential_vm.broadcast_inter_hart_request inter_hart_request
      let hart_after_second_swap := hart_after_first_swap.swap_mscratch
      match result with
      | .ok vm =>
        some (.ok (), { hardware_hart := hart_after_second_swap,
                        control_data := st.control_data.update_vm vm_id vm })
      | .error e =>
        some (.error e, { hardware_hart := hart_after_second_swap,
                          control_data := st.control_data })

/-- Translation of ConfidentialFlow::process_inter_hart_requests (mod.rs
168-185): under the registry's per-VM access, drain this hart's inter-hart
request queue and apply each drained request's transformation to the
confidential hart, in FIFO (enqueue) order. The registry lookup and queue
access are unwrapped in the source; their failure is a panic, embedded as
none. -/
def ConfidentialFlow.process_inter_hart_requests (st : MonitorState) :
    Option MonitorState :=
  match st.hardware_hart.confidential_hart.confidential_vm_id with
  | none => none
  | some vm_id =>
    match st.control_data.lookup vm_id with
    | none => none
    | some confidential_vm =>
      let hart_id := st.hardware_hart.confidential_hart.confidential_hart_id
      match confidential_vm.inter_hart_requests.get? hart_id with
      | none => none
      | some queue =>
        let hardware_hart :=
          (queue.map InterHartRequest.into_expose_to_confidential_vm).foldl
            (fun hh transformation =>
              { hh with confidential_hart := hh.confidential_hart.apply transformation })
            st.hardware_hart
        let vm_after_drain :=
          { confidential_vm with inter_hart_requests :=
              confidential_vm.inter_hart_requests.set hart_id [] }
        some { hardware_hart := hardware_hart,
               control_data := st.control_data.update_vm vm_id vm_after_drain }

/-- Outcome of ConfidentialFlow::resume_confidential_hart_execution: which
specialized result handler the pending request resolved to, with the
hypervisor-supplied result it was given, or a direct terminal exit to the
confidential hart (mod.rs 120-133). -/
inductive ResumeOutcome where
  | dispatched_hypercall_result (result : Nat) (st : MonitorState)
  | dispatched_guest_load_page_fault_result (result : Nat) (request : Nat) (st : MonitorState)
  | dispatched_guest_store_page_fault_result (request : Nat) (st : MonitorState)
  | dispatched_share_page_result (result : Nat) (request : SharePageRequest) (st : MonitorState)
  | exited (transformation : ExposeToConfidentialVm) (st : MonitorState)
deriving DecidableEq, Repr

/-- Translation of the dispatch on the taken pending request in
resume_confidential_hart_execution (mod.rs 120-133): each pending-request
variant maps to exactly one resume path; no pending request resumes
execution unchanged. -/
def ConfidentialFlow.resume_dispatch (taken : Option PendingRequest) (st : MonitorState) :
    ResumeOutcome :=
  match taken with
  | some .SbiRequest =>
    .dispatched_hypercall_result st.hardware_hart.hypervisor_result st
  | some (.GuestLoadPageFault request) =>
    .dispatched_guest_load_page_fault_result st.hardware_hart.hypervisor_result request st
  | some (.GuestStorePageFault request) =>
    .dispatched_guest_store_page_fault_result request st
  | some (.SharePage request) =>
    .dispatched_share_page_result st.hardware_hart.hypervisor_result request st
  | some .SbiHsmHartStart =>
    .exited .SbiHsmHartStart (ConfidentialFlow.exit_to_confidential_hart st .SbiHsmHartStart)
  | some .SbiHsmHartStartPending =>
    .exited .SbiHsmHartStartPending
      (ConfidentialFlow.exit_to_confidential_hart st .SbiHsmHartStartPending)
  | none =>
    .exited .Resume (ConfidentialFlow.exit_to_confidential_hart st .Resume)

/-- Translation of ConfidentialFlow::resume_confidential_hart_execution
(mod.rs 108-134): create the flow (panics on a dummy hart, embedded as
none), process the queued inter-hart requests, then take the pending
request and dispatch on it. -/
def ConfidentialFlow.resume_confidential_hart_execution (st : MonitorState) :
    Option ResumeOutcome :=
  if st.hardware_hart.confidential_hart.is_dummy then none
  else
    match ConfidentialFlow.process_inter_hart_requests st with
    | none => none
    | some st1 =>
      let (taken, hart) := st1.hardware_hart.confidential_hart.take_request
      let st2 := { st1 with hardware_hart := { st1.hardware_hart with confidential_hart := hart } }
      some (ConfidentialFlow.resume_dispatch taken st2)

/-! ## Trap-cause dispatch (route_confidential_flow) -/

/-- ACE extension functions used in route_confidential_flow. -/
inductive AceExtension where
  | SharePageWithHypervisor
  | StopSharingPageWithHypervisor
deriving DecidableEq, Repr

/-- Base extension functions used in route_confidential_flow. -/
inductive BaseExtension where
  | GetSpecVersion
  | GetImplId
  | GetImplVersion
  | ProbeExtension
  | GetMvendorId
  | GetMarchid
  | GetMimpid
deriving DecidableEq, Repr

/-- IPI extension functions used in route_confidential_flow. -/
inductive IpiExtension where
  | SendIpi
deriving DecidableEq, Repr

/-- Remote-fence extension functions used in route_confidential_flow. -/
inductive RfenceExtension where
  | RemoteFenceI
  | RemoteSfenceVma
  | RemoteSfenceVmaAsid
  | RemoteHfenceGvmaVmid
  | RemoteHfenceGvma
  | RemoteHfenceVvmaAsid
  | RemoteHfenceVvma
deriving DecidableEq, Repr

/-- HSM extension functions used in route_confidential_flow. -/
inductive HsmExtension where
  | HartStart
  | HartStop
  | HartSuspend
  | HartGetStatus
deriving DecidableEq, Repr

/-- System-reset extension functions used in route_confidential_flow. -/
inductive SrstExtension where
  | SystemReset
deriving DecidableEq, Repr

/-- SBI extension identifier as decoded by the architecture layer.
Unrecognised extension/function id pairs decode to Unknown. -/
inductive SbiExtension where
  | Ace (f : AceExtension)
  | Base (f : BaseExtension)
  | Ipi (f : IpiExtension)
  | Rfence (f : RfenceExtension)
  | Hsm (f : HsmExtension)
  | Srst (f : SrstExtension)
  | Unknown (extension_id : Nat) (function_id : Nat)
deriving DecidableEq, Repr

/-- Trap cause recorded for the confidential hart. The variants matched by
route_confidential_flow come from mod.rs 74-101; the catch-all arm at
mod.rs 102 shows further causes exist, modelled from the spec (section 6):
traps such as hypervisor-originated calls or other exceptions are made
unreachable by trap delegation and carry no declared handler. -/
inductive TrapCause where
  | Interrupt
  | VsEcall (e : SbiExtension)
  | GuestLoadPageFault
  | VirtualInstruction
  | GuestStorePageFault
  | HsEcall (e : SbiExtension)
  | IllegalInstruction
  | UnknownTrap (mcause : Nat)
deriving DecidableEq, Repr

/-- Handlers reachable from route_confidential_flow, one per declared match
arm (mod.rs 75-101). -/
inductive ConfidentialHandler where
  | interrupt
  | share_page
  | unshare_page
  | hypercall
  | sbi_probe_extension
  | sbi_ipi
  | sbi_rfence_nop
  | sbi_hsm_hart_start
  | sbi_hsm_hart_stop
  | sbi_hsm_hart_suspend
  | sbi_hsm_hart_status
  | sbi_srst
  | invalid_call
  | guest_load_page_fault
  | virtual_instruction
  | guest_store_page_fault
deriving DecidableEq, Repr

/-- Translation of the dispatch match in route_confidential_flow (mod.rs
74-103): each declared (cause, extension, function) combination selects its
handler; every other combination reaches the catch-all panic, embedded as
none. -/
def route_confidential_flow_dispatch : TrapCause → Option ConfidentialHandler
  | .Interrupt => some .interrupt
  | .VsEcall (.Ace .SharePageWithHypervisor) => some .share_page
  | .VsEcall (.Ace .StopSharingPageWithHypervisor) => some .unshare_page
  | .VsEcall (.Base .GetSpecVersion) => some .hypercall
  | .VsEcall (.Base .GetImplId) => some .hypercall
  | .VsEcall (.Base .GetImplVersion) => some .hypercall
  | .VsEcall (.Base .ProbeExtension) => some .sbi_probe_extension
  | .VsEcall (.Base .GetMvendorId) => some .hypercall
  | .VsEcall (.Base .GetMarchid) => some .hypercall
  | .VsEcall (.Base .GetMimpid) => some .hypercall
  | .VsEcall (.Ipi .SendIpi) => some .sbi_ipi
  | .VsEcall (.Rfence .RemoteFenceI) => some .sbi_ipi
  | .VsEcall (.Rfence .RemoteSfenceVma) => some .sbi_ipi
  | .VsEcall (.Rfence .RemoteSfenceVmaAsid) => some .sbi_ipi
  | .VsEcall (.Rfence .RemoteHfenceGvmaVmid) => some .sbi_rfence_nop
  | .VsEcall (.Rfence .RemoteHfenceGvma) => some .sbi_rfence_nop
  | .VsEcall (.Rfence .RemoteHfenceVvmaAsid) => some .sbi_rfence_nop
  | .VsEcall (.Rfence .RemoteHfenceVvma) => some .sbi_rfence_nop
  | .VsEcall (.Hsm .HartStart) => some .sbi_hsm_hart_start
  | .VsEcall (.Hsm .HartStop) => some .sbi_hsm_hart_stop
  | .VsEcall (.Hsm .HartSuspend) => some .sbi_hsm_hart_suspend
  | .VsEcall (.Hsm .HartGetStatus) => some .sbi_hsm_hart_status
  | .VsEcall (.Srst .SystemReset) => some .sbi_srst
  | .VsEcall (.Unknown _ _) => some .invalid_call
  | .GuestLoadPageFault => some .guest_load_page_fault
  | .VirtualInstruction => some .virtual_instruction
  | .GuestStorePageFault => some .guest_store_page_fault
  | _ => none

/-- Spec-side statement of the declared dispatch key space, written from the
words of the spec (sections 4.2 and 6): interrupts, every supervisor call
made by the confidential VM (including unrecognised ones, which are routed
to the invalid-call handler), guest load/store page faults, and virtual
instruction traps; nothing else. -/
def declaredDispatchKeySpace : TrapCause → Bool
  | .Interrupt => true
  | .VsEcall _ => true
  | .GuestLoadPageFault => true
  | .VirtualInstruction => true
  | .GuestStorePageFault => true
  | _ => false

/-! ## Confidential VM creation (convert_to_confidential_vm.rs) -/

/-- Conversion request carrying the boot-time VM state
(convert_to_confidential_vm.rs 22: the request converts into the hart
state). -/
structure ConvertToConfidentialVm where
  hart_state : HartArchitecturalState
deriving DecidableEq, Repr

/-- Modelled from the spec (section 4.7): hart 0 is initialized from the
supplied boot state, inheriting its register contents. -/
def ConfidentialHart.from_vm_hart (confidential_hart_id : Nat)
    (hart_state : HartArchitecturalState) : ConfidentialHart :=
  { confidential_vm_id := none, confidential_hart_id := confidential_hart_id,
    lifecycle_state := .Started, regs := hart_state.regs,
    pending_request := none, applied_transformations := [] }

/-- Modelled from the spec (section 4.7): harts other than the boot hart are
initialized to the VM-reset state; the supplied boot register contents are
not inherited (the reset register file is a fixed constant). -/
def ConfidentialHart.from_vm_hart_reset (confidential_hart_id : Nat)
    (_hart_state : HartArchitecturalState) : ConfidentialHart :=
  { confidential_vm_id := none, confidential_hart_id := confidential_hart_id,
    lifecycle_state := .Stopped, regs := List.replicate 32 0,
    pending_request := none, applied_transformations := [] }

def BOOT_HART_ID : Nat := 0

/-- Transformations handed back to the hypervisor on the non-confidential
exit. Modelled from the spec (sections 6 and 7) and the uses in
convert_to_confidential_vm.rs: either the registration call carrying the new
VM id and boot hart id (kvm_ace_register), or an error-derived result. -/
inductive ExposeToHypervisor where
  | SbiRequestKvmAceRegister (vm_id : ConfidentialVmId) (boot_hart_id : Nat)
  | SbiResponseError (e : Error)
deriving DecidableEq, Repr

/-- Modelled from the spec (section 7): a recoverable error is converted
into a result value surfaced to the hypervisor as a call failure. -/
def Error.into_non_confidential_transformation (e : Error) : ExposeToHypervisor :=
  .SbiResponseError e

/-- Translation of create_confidential_vm (convert_to_confidential_vm.rs
21-50): build the memory protector from the VM state, construct the two
confidential harts (hart 0 from the boot state, every other hart id from
the reset state), allocate placeholder measurements, then under the
registry's write lock allocate a fresh unique id and insert the new VM
record. -/
def create_confidential_vm (request : ConvertToConfidentialVm) (cd : ControlData) :
    Except Error ConfidentialVmId × ControlData :=
  let hart_state := request.hart_state
  match ConfidentialVmMemoryProtector.from_vm_state hart_state with
  | .error e => (.error e, cd)
  | .ok memory_protector =>
    let confidential_harts_count := 2
    let confidential_harts := (List.range confidential_harts_count).map
      (fun confidential_hart_id =>
        match confidential_hart_id with
        | 0 => ConfidentialHart.from_vm_hart confidential_hart_id hart_state
        | _ => ConfidentialHart.from_vm_hart_reset confidential_hart_id hart_state)
    let measurements := List.replicate 4 ConfidentialVmMeasurement.empty
    match cd.unique_id with
    | .error e => (.error e, cd)
    | .ok (id, cd1) =>
      let confidential_vm := ConfidentialVm.new id confidential_harts measurements memory_protector
      let (confidential_vm_id, cd2) := cd1.insert_confidential_vm confidential_vm
      (.ok confidential_vm_id, cd2)

/-- Translation of handle (convert_to_confidential_vm.rs 12-19): try the
conversion, then exit to the hypervisor carrying either the registration
request for the new VM id or the error-derived transformation. -/
def convert_to_confidential_vm_handle (request : ConvertToConfidentialVm)
    (cd : ControlData) : ExposeToHypervisor × ControlData :=
  match create_confidential_vm request cd with
  | (.ok id, cd1) => (.SbiRequestKvmAceRegister id BOOT_HART_ID, cd1)
  | (.error e, cd1) => (e.into_non_confidential_transformation, cd1)

/-- A sequence of conversion calls against the registry: each call runs on
the registry state left by the previous one, collecting every call's
result. Used to state that a conversion's id differs from the id of every
conversion at any later point, not just the immediately following one. -/
def run_conversions : List ConvertToConfidentialVm → ControlData →
    List (Except Error ConfidentialVmId) × ControlData
  | [], cd => ([], cd)
  | request :: rest, cd =>
    match create_confidential_vm request cd with
    | (result, cd1) =>
      match run_conversions rest cd1 with
      | (results, cd2) => (result :: results, cd2)

/-- The ids returned by the successful conversions of a call sequence. -/
def successfulConversionIds : List (Except Error ConfidentialVmId) → List ConfidentialVmId
  | [] => []
  | .ok id :: rest => id :: successfulConversionIds rest
  | .error _ :: rest => successfulConversionIds rest

/-! ## Lifecycle legality table (spec section 4.5), for comparison with the
delegations -/

/-- A lifecycle transition requested through the ConfidentialFlow
delegations (mod.rs 189-213). -/
inductive HartLifecycleTransition where
  | suspend (request : SbiHsmHartSuspend)
  | stop
  | resume
  | shutdown
deriving DecidableEq, Repr

/-- Spec-side statement of the legal transition table, written from the
words of the spec (section 4.5): Started to Suspended, Suspended to
Started, Started to Stopped, and any non-terminal state to Shutdown. -/
def legalLifecycleTransition : HartLifecycleState → HartLifecycleTransition → Bool
  | .Started, .suspend _ => true
  | .Suspended, .resume => true
  | .Started, .stop => true
  | .Started, .shutdown => true
  | .Suspended, .shutdown => true
  | .Stopped, .shutdown => true
  | _, _ => false

/-- State with only the confidential hart's lifecycle state replaced. -/
def MonitorState.with_lifecycle_state (st : MonitorState) (s : HartLifecycleState) :
    MonitorState :=
  { st with hardware_hart := { st.hardware_hart with confidential_hart :=
      { st.hardware_hart.confidential_hart with lifecycle_state := s } } }

/-! ## Sample states used by witnesses -/

def sampleConfidentialHart : ConfidentialHart :=
  { confidential_vm_id := some ⟨0⟩, confidential_hart_id := 0,
    lifecycle_state := .Started, regs := [7, 8],
    pending_request := none, applied_transformations := [] }

def sampleHardwareHart : HardwareHart :=
  { confidential_hart := sampleConfidentialHart, mscratch := 5,
    previous_mscratch := 11, hypervisor_result := 42 }

def sampleVm : ConfidentialVm :=
  { id := ⟨0⟩, confidential_harts := [sampleConfidentialHart],
    inter_hart_requests := [[]], measurements := [],
    memory_protector := { vm_state := { regs := [7, 8], valid_address_translation := true } } }

def sampleMonitorState : MonitorState :=
  { hardware_hart := sampleHardwareHart,
    control_data := { next_id := 1, confidential_vms := [(⟨0⟩, sampleVm)] } }

def sampleShutdownState : MonitorState :=
  { sampleMonitorState with hardware_hart := { sampleHardwareHart with confidential_hart :=
      { sampleConfidentialHart with lifecycle_state := .Shutdown } } }

end AceRiscv

namespace AceRiscv

/-- C7: ConfidentialFlow::create fails fatally (panics) exactly when the
hardware hart's assigned confidential hart is the dummy hart; when a
non-dummy confidential hart is assigned it returns the guard over that
hardware hart. -/
theorem confidentialFlow_create_panics_iff_dummy (h : HardwareHart) :
    (ConfidentialFlow.create h = none ↔ h.confidential_hart.is_dummy = true) ∧
    (h.confidential_hart.is_dummy = false →
      ConfidentialFlow.create h = some { hardware_hart := h }) := by
  constructor
  · unfold ConfidentialFlow.create
    by_cases hd : h.confidential_hart.is_dummy = true <;> simp [hd]
  · intro hd
    unfold ConfidentialFlow.create
    simp [hd]

/-- Witness for C7 at a concrete non-dummy hardware hart. -/
theorem confidentialFlow_create_witness :
    (ConfidentialFlow.create sampleHardwareHart = none ↔
      sampleHardwareHart.confidential_hart.is_dummy = true) ∧
    ConfidentialFlow.create sampleHardwareHart = some { hardware_hart := sampleHardwareHart } :=
  ⟨(confidentialFlow_create_panics_iff_dummy sampleHardwareHart).1,
   (confidentialFlow_create_panics_iff_dummy sampleHardwareHart).2 (by decide)⟩

/-- C8: when recording the pending request fails because the slot is already
occupied, set_pending_request does not propagate an error value but exits to
the confidential hart with the error converted into a confidential-side
transformation; on success it returns the flow with the request recorded. -/
theorem setPendingRequest_exits_on_failure (st : MonitorState) (request : PendingRequest) :
    (st.hardware_hart.confidential_hart.pending_request.isSome = true →
      ConfidentialFlow.set_pending_request st request =
        .exited Error.PendingRequest.into_confidential_transformation
          (ConfidentialFlow.exit_to_confidential_hart st
            Error.PendingRequest.into_confidential_transformation)) ∧
    (st.hardware_hart.confidential_hart.pending_request = none →
      ConfidentialFlow.set_pending_request st request =
        .returned { st with hardware_hart := { st.hardware_hart with confidential_hart :=
          { st.hardware_hart.confidential_hart with pending_request := some request } } }) := by
  constructor
  · intro hocc
    simp [ConfidentialFlow.set_pending_request, ConfidentialHart.set_pending_request, hocc]
  · intro hempty
    simp [ConfidentialFlow.set_pending_request, ConfidentialHart.set_pending_request, hempty]

/-- Witness for C8: a hart with an occupied slot exits with the error
transformation, and a hart with an empty slot records the request. -/
theorem setPendingRequest_exits_on_failure_witness :
    (ConfidentialFlow.set_pending_request
        { sampleMonitorState with hardware_hart := { sampleHardwareHart with confidential_hart :=
            { sampleConfidentialHart with pending_request := some .SbiRequest } } }
        .SbiHsmHartStart =
      .exited Error.PendingRequest.into_confidential_transformation
        (ConfidentialFlow.exit_to_confidential_hart
          { sampleMonitorState with hardware_hart := { sampleHardwareHart with confidential_hart :=
              { sampleConfidentialHart with pending_request := some .SbiRequest } } }
          Error.PendingRequest.into_confidential_transformation)) ∧
    (ConfidentialFlow.set_pending_request sampleMonitorState .SbiHsmHartStart =
      .returned { sampleMonitorState with hardware_hart := { sampleHardwareHart with
          confidential_hart := { sampleConfidentialHart with
            pending_request := some .SbiHsmHartStart } } }) := by
  constructor
  · exact (setPendingRequest_exits_on_failure
      { sampleMonitorState with hardware_hart := { sampleHardwareHart with confidential_hart :=
          { sampleConfidentialHart with pending_request := some .SbiRequest } } }
      .SbiHsmHartStart).1 (by decide)
  · exact (setPendingRequest_exits_on_failure sampleMonitorState .SbiHsmHartStart).2 (by decide)

/-- Counterexample to C6 as stated: at a hart already in the terminal
Shutdown state, requesting the shutdown transition is outside the legal
table, and the underlying validated transition reports the illegality, yet
the shutdown delegation (whose source returns unit) surfaces no recoverable
error: its entire result is the unchanged state, so the error is
discarded. -/
theorem shutdown_delegation_discards_error_counterexample :
    legalLifecycleTransition HartLifecycleState.Shutdown .shutdown = false ∧
    ConfidentialHart.transition_to_shutdown
        sampleShutdownState.hardware_hart.confidential_hart =
      .error .InvalidLifecycleTransition ∧
    ConfidentialFlow.shutdown_confidential_hart sampleShutdownState = sampleShutdownState := by
  exact ⟨rfl, rfl, rfl⟩

/-- C6 (amended): a transition requested through the three fallible
delegations (suspend_confidential_hart, stop_confidential_hart,
start_confidential_hart_after_suspend) succeeds if and only if the (state,
transition) pair is in the legal table, and an illegal one returns a
recoverable error leaving the whole state unchanged; the shutdown
delegation returns no result value: it moves exactly the non-terminal
states to Shutdown and leaves an already-Shutdown hart unchanged, the
underlying transition's validation error being discarded. -/
theorem lifecycle_transition_matches_legal_table (st : MonitorState) :
    (∀ request, ConfidentialFlow.suspend_confidential_hart st request =
      if legalLifecycleTransition st.hardware_hart.confidential_hart.lifecycle_state
          (.suspend request)
      then (.ok (), st.with_lifecycle_state .Suspended)
      else (.error .InvalidLifecycleTransition, st)) ∧
    (ConfidentialFlow.stop_confidential_hart st =
      if legalLifecycleTransition st.hardware_hart.confidential_hart.lifecycle_state .stop
      then (.ok (), st.with_lifecycle_state .Stopped)
      else (.error .InvalidLifecycleTransition, st)) ∧
    (ConfidentialFlow.start_confidential_hart_after_suspend st =
      if legalLifecycleTransition st.hardware_hart.confidential_hart.lifecycle_state .resume
      then (.ok (), st.with_lifecycle_state .Started)
      else (.error .InvalidLifecycleTransition, st)) ∧
    (ConfidentialFlow.shutdown_confidential_hart st =
      if legalLifecycleTransition st.hardware_hart.confidential_hart.lifecycle_state .shutdown
      then st.with_lifecycle_state .Shutdown
      else st) := by
  rcases st with ⟨⟨hart, m, pm, hr⟩, cd⟩
  refine ⟨fun request => ?_, ?_, ?_, ?_⟩ <;>
    rcases hstate : hart.lifecycle_state <;>
      simp_all [ConfidentialFlow.suspend_confidential_hart,
        ConfidentialFlow.stop_confidential_hart,
        ConfidentialFlow.start_confidential_hart_after_suspend,
        ConfidentialFlow.shutdown_confidential_hart,
        ConfidentialHart.transition_from_started_to_suspended,
        ConfidentialHart.transition_from_started_to_stopped,
        ConfidentialHart.transition_from_suspended_to_started,
        ConfidentialHart.transition_to_shutdown,
        legalLifecycleTransition, MonitorState.with_lifecycle_state]

/-- C4: the mscratch substitution in broadcast_inter_hart_request is paired
on every path: whenever the call returns (success or error), the hardware
hart's mscratch pair observed afterwards equals the values before the
call. -/
theorem broadcast_preserves_mscratch (st : MonitorState) (r : InterHartRequest)
    (result : Except Error Unit) (st1 : MonitorState)
    (h : ConfidentialFlow.broadcast_inter_hart_request st r = some (result, st1)) :
    st1.hardware_hart.mscratch = st.hardware_hart.mscratch ∧
    st1.hardware_hart.previous_mscratch = st.hardware_hart.previous_mscratch := by
  unfold ConfidentialFlow.broadcast_inter_hart_request at h
  split at h
  · cases h
  · split at h
    · cases h
      exact ⟨rfl, rfl⟩
    · dsimp only at h
      split at h
      · cases h
        simp [HardwareHart.swap_mscratch]
      · cases h
        simp [HardwareHart.swap_mscratch]

/-- Witness for C4: a broadcast that fails mid-call (delivery to an invalid
target hart) still restores the mscratch pair. -/
theorem broadcast_preserves_mscratch_witness :
    ConfidentialFlow.broadcast_inter_hart_request sampleMonitorState
        { kind := .SbiIpi, targets := [5] } =
      some (.error .IpiDeliveryFailure, sampleMonitorState) ∧
    (sampleMonitorState.hardware_hart.mscratch = sampleMonitorState.hardware_hart.mscratch ∧
     sampleMonitorState.hardware_hart.previous_mscratch =
       sampleMonitorState.hardware_hart.previous_mscratch) := by
  refine ⟨by rfl, ?_⟩
  exact broadcast_preserves_mscratch sampleMonitorState { kind := .SbiIpi, targets := [5] }
    (.error .IpiDeliveryFailure) sampleMonitorState (by rfl)

/-- C2: dispatching a trap cause / extension / function combination outside
the declared mapping reaches the catch-all panic (embedded as none) rather
than any handler, and every combination inside the declared key space
reaches a handler. -/
theorem route_dispatch_fatal_iff_outside_declared (c : TrapCause) :
    route_confidential_flow_dispatch c = none ↔ declaredDispatchKeySpace c = false := by
  cases c with
  | Interrupt => simp [route_confidential_flow_dispatch, declaredDispatchKeySpace]
  | VsEcall e =>
    cases e with
    | Ace f => cases f <;> simp [route_confidential_flow_dispatch, declaredDispatchKeySpace]
    | Base f => cases f <;> simp [route_confidential_flow_dispatch, declaredDispatchKeySpace]
    | Ipi f =>
      cases f
      simp [route_confidential_flow_dispatch, declaredDispatchKeySpace]
    | Rfence f => cases f <;> simp [route_confidential_flow_dispatch, declaredDispatchKeySpace]
    | Hsm f => cases f <;> simp [route_confidential_flow_dispatch, declaredDispatchKeySpace]
    | Srst f =>
      cases f
      simp [route_confidential_flow_dispatch, declaredDispatchKeySpace]
    | Unknown a b => simp [route_confidential_flow_dispatch, declaredDispatchKeySpace]
  | GuestLoadPageFault => simp [route_confidential_flow_dispatch, declaredDispatchKeySpace]
  | VirtualInstruction => simp [route_confidential_flow_dispatch, declaredDispatchKeySpace]
  | GuestStorePageFault => simp [route_confidential_flow_dispatch, declaredDispatchKeySpace]
  | HsEcall e => simp [route_confidential_flow_dispatch, declaredDispatchKeySpace]
  | IllegalInstruction => simp [route_confidential_flow_dispatch, declaredDispatchKeySpace]
  | UnknownTrap m => simp [route_confidential_flow_dispatch, declaredDispatchKeySpace]

lemma create_confidential_vm_ok_shape (request : ConvertToConfidentialVm) (cd : ControlData)
    (id1 : ConfidentialVmId) (cd1 : ControlData)
    (h : create_confidential_vm request cd = (.ok id1, cd1)) :
    id1 = ⟨cd.next_id⟩ ∧
    ∃ protector, cd1 =
      { next_id := cd.next_id + 1,
        confidential_vms := cd.confidential_vms ++
          [(id1, ConfidentialVm.new id1
              [ConfidentialHart.from_vm_hart 0 request.hart_state,
               ConfidentialHart.from_vm_hart_reset 1 request.hart_state]
              (List.replicate 4 ConfidentialVmMeasurement.empty) protector)] } := by
  unfold create_confidential_vm at h
  dsimp only at h
  split at h
  · cases h
  · rename_i protector hprot
    split at h
    · cases h
    · rename_i pr hid
      obtain ⟨id0, cdA⟩ := pr
      unfold ControlData.unique_id at hid
      split at hid
      · rename_i hlt
        cases hid
        dsimp only [ControlData.insert_confidential_vm] at h
        cases h
        exact ⟨rfl, protector, rfl⟩
      · cases hid

lemma create_confidential_vm_error_shape (request : ConvertToConfidentialVm)
    (cd : ControlData) (e : Error) (cd1 : ControlData)
    (h : create_confidential_vm request cd = (.error e, cd1)) : cd1 = cd := by
  unfold create_confidential_vm at h
  dsimp only at h
  split at h
  · cases h
    rfl
  · split at h
    · cases h
      rfl
    · rename_i pr hid
      obtain ⟨id0, cdA⟩ := pr
      dsimp only [ControlData.insert_confidential_vm] at h
      cases h

lemma create_confidential_vm_ok_next_id (request : ConvertToConfidentialVm)
    (cd : ControlData) (id1 : ConfidentialVmId) (cd1 : ControlData)
    (h : create_confidential_vm request cd = (.ok id1, cd1)) :
    id1 = ⟨cd.next_id⟩ ∧ cd1.next_id = cd.next_id + 1 := by
  obtain ⟨hid, protector, hcd⟩ := create_confidential_vm_ok_shape request cd id1 cd1 h
  exact ⟨hid, by rw [hcd]⟩

lemma run_conversions_ids_lower_bound (rs : List ConvertToConfidentialVm)
    (cd : ControlData) :
    ∀ i ∈ successfulConversionIds (run_conversions rs cd).1, cd.next_id ≤ i.id := by
  induction rs generalizing cd with
  | nil =>
    intro i hi
    simp [run_conversions, successfulConversionIds] at hi
  | cons r rs ih =>
    intro i hi
    rcases hcall : create_confidential_vm r cd with ⟨res, cd1⟩
    rcases hrun : run_conversions rs cd1 with ⟨results, cd2⟩
    simp only [run_conversions, hcall, hrun] at hi
    cases res with
    | ok id =>
      obtain ⟨hid, hnext⟩ := create_confidential_vm_ok_next_id r cd id cd1 hcall
      simp only [successfulConversionIds, List.mem_cons] at hi
      rcases hi with rfl | hi
      · rw [hid]
      · have hbound := ih cd1 i (by rw [hrun]; exact hi)
        omega
    | error e =>
      have hkeep : cd1 = cd := create_confidential_vm_error_shape r cd e cd1 hcall
      simp only [successfulConversionIds] at hi
      have hbound := ih cd1 i (by rw [hrun]; exact hi)
      rw [hkeep] at hbound
      exact hbound

/-- C5: a successful conversion with two harts builds hart 0 from the
supplied boot state and hart 1 from the VM-reset state; the registry effect
of the write-locked section is exactly the allocation of a fresh id and the
insertion of the one new VM record; the reset initialization never inherits
the boot register contents; the returned id is the registry's fresh
counter value, and no conversion of any later sequence of conversion calls
(successful or failed, at any distance) ever returns this id again, so each
successful conversion's id is distinct from every earlier conversion's. -/
theorem create_confidential_vm_hart_init_and_distinct_ids
    (request : ConvertToConfidentialVm) (cd : ControlData)
    (id1 : ConfidentialVmId) (cd1 : ControlData)
    (h : create_confidential_vm request cd = (.ok id1, cd1)) :
    (∃ protector, cd1 =
      { next_id := cd.next_id + 1,
        confidential_vms := cd.confidential_vms ++
          [(id1, ConfidentialVm.new id1
              [ConfidentialHart.from_vm_hart 0 request.hart_state,
               ConfidentialHart.from_vm_hart_reset 1 request.hart_state]
              (List.replicate 4 ConfidentialVmMeasurement.empty) protector)] }) ∧
    (∀ s s', ConfidentialHart.from_vm_hart_reset 1 s = ConfidentialHart.from_vm_hart_reset 1 s') ∧
    id1 = ⟨cd.next_id⟩ ∧
    (∀ requests : List ConvertToConfidentialVm,
      id1 ∉ successfulConversionIds (run_conversions requests cd1).1) := by
  obtain ⟨hid, protector, hcd⟩ := create_confidential_vm_ok_shape request cd id1 cd1 h
  have hnext : cd1.next_id = cd.next_id + 1 := by rw [hcd]
  refine ⟨⟨protector, hcd⟩, fun s s' => rfl, hid, ?_⟩
  intro requests hmem
  have hbound := run_conversions_ids_lower_bound requests cd1 id1 hmem
  rw [hid] at hbound
  have hbound2 : cd1.next_id ≤ cd.next_id := hbound
  omega

/-- Witness for C5 at a concrete conversion request and an empty registry. -/
theorem create_confidential_vm_hart_init_witness :
    (∃ protector, (create_confidential_vm ⟨⟨[7, 8], true⟩⟩ ⟨0, []⟩).2 =
      { next_id := 0 + 1,
        confidential_vms := ([] : List (ConfidentialVmId × ConfidentialVm)) ++
          [(⟨0⟩, ConfidentialVm.new ⟨0⟩
              [ConfidentialHart.from_vm_hart 0 (⟨[7, 8], true⟩ : HartArchitecturalState),
               ConfidentialHart.from_vm_hart_reset 1 (⟨[7, 8], true⟩ : HartArchitecturalState)]
              (List.replicate 4 ConfidentialVmMeasurement.empty) protector)] }) ∧
    (∀ s s', ConfidentialHart.from_vm_hart_reset 1 s = ConfidentialHart.from_vm_hart_reset 1 s') ∧
    (⟨0⟩ : ConfidentialVmId) = ⟨(⟨0, []⟩ : ControlData).next_id⟩ ∧
    (∀ requests : List ConvertToConfidentialVm,
      (⟨0⟩ : ConfidentialVmId) ∉ successfulConversionIds
        (run_conversions requests (create_confidential_vm ⟨⟨[7, 8], true⟩⟩ ⟨0, []⟩).2).1) :=
  create_confidential_vm_hart_init_and_distinct_ids ⟨⟨[7, 8], true⟩⟩ ⟨0, []⟩ ⟨0⟩
    (create_confidential_vm ⟨⟨[7, 8], true⟩⟩ ⟨0, []⟩).2 (by rfl)

/-- C9: a failed conversion (memory-protector construction or unique-id
allocation fails) leaves the Control Data registry unchanged, and the handle
entry point exits to the hypervisor with the error-derived transformation
instead of a success result. -/
theorem create_confidential_vm_failure_is_atomic
    (request : ConvertToConfidentialVm) (cd : ControlData)
    (e : Error) (cd1 : ControlData)
    (h : create_confidential_vm request cd = (.error e, cd1)) :
    cd1 = cd ∧
    convert_to_confidential_vm_handle request cd =
      (e.into_non_confidential_transformation, cd) := by
  have hcd : cd1 = cd := create_confidential_vm_error_shape request cd e cd1 h
  subst hcd
  refine ⟨rfl, ?_⟩
  unfold convert_to_confidential_vm_handle
  rw [h]

/-- Witness for C9: a conversion request describing an invalid memory layout
fails, inserts nothing, and surfaces the error to the hypervisor. -/
theorem create_confidential_vm_failure_is_atomic_witness :
    (⟨0, []⟩ : ControlData) = (⟨0, []⟩ : ControlData) ∧
    convert_to_confidential_vm_handle ⟨⟨[7, 8], false⟩⟩ ⟨0, []⟩ =
      (Error.InvalidMemoryLayout.into_non_confidential_transformation, (⟨0, []⟩ : ControlData)) :=
  create_confidential_vm_failure_is_atomic ⟨⟨[7, 8], false⟩⟩ ⟨0, []⟩
    .InvalidMemoryLayout ⟨0, []⟩ (by rfl)

lemma foldl_apply_shape (ts : List ExposeToConfidentialVm) (hh : HardwareHart) :
    ts.foldl (fun hh t => { hh with confidential_hart := hh.confidential_hart.apply t }) hh =
    { hh with confidential_hart := { hh.confidential_hart with
        applied_transformations := hh.confidential_hart.applied_transformations ++ ts } } := by
  induction ts generalizing hh with
  | nil => simp
  | cons t ts ih =>
    rw [List.foldl_cons, ih]
    simp [ConfidentialHart.apply]

/-- C1: when a confidential hart with queued inter-hart requests and a
pending request resumes, every queued request is converted to a
transformation and applied to the hart in FIFO (enqueue) order while the
pending-request slot is still occupied; only afterwards is the slot taken
(consumed) and the result handler resolved from its contents. -/
theorem resume_applies_queued_requests_fifo_before_pending
    (st : MonitorState) (vm_id : ConfidentialVmId) (vm : ConfidentialVm)
    (q : List InterHartRequest) (p : PendingRequest)
    (hvm : st.hardware_hart.confidential_hart.confidential_vm_id = some vm_id)
    (hlookup : st.control_data.lookup vm_id = some vm)
    (hq : vm.inter_hart_requests.get?
      st.hardware_hart.confidential_hart.confidential_hart_id = some q)
    (hp : st.hardware_hart.confidential_hart.pending_request = some p) :
    ∃ st1 : MonitorState,
      ConfidentialFlow.process_inter_hart_requests st = some st1 ∧
      st1.hardware_hart.confidential_hart.applied_transformations =
        st.hardware_hart.confidential_hart.applied_transformations ++
          q.map InterHartRequest.into_expose_to_confidential_vm ∧
      st1.hardware_hart.confidential_hart.pending_request = some p ∧
      ConfidentialFlow.resume_confidential_hart_execution st =
        some (ConfidentialFlow.resume_dispatch (some p)
          { st1 with hardware_hart := { st1.hardware_hart with confidential_hart :=
              { st1.hardware_hart.confidential_hart with pending_request := none } } }) := by
  have hdummy : st.hardware_hart.confidential_hart.is_dummy = false := by
    simp [ConfidentialHart.is_dummy, hvm]
  have hproc : ConfidentialFlow.process_inter_hart_requests st =
      some { hardware_hart :=
               { st.hardware_hart with
                   confidential_hart :=
                     { st.hardware_hart.confidential_hart with
                         applied_transformations :=
                           st.hardware_hart.confidential_hart.applied_transformations
                             ++ List.map InterHartRequest.into_expose_to_confidential_vm q } },
             control_data :=
               st.control_data.update_vm vm_id
                 { vm with
                     inter_hart_requests :=
                       vm.inter_hart_requests.set
                         st.hardware_hart.confidential_hart.confidential_hart_id [] } } := by
    unfold ConfidentialFlow.process_inter_hart_requests
    rw [hvm]
    dsimp only
    rw [hlookup]
    dsimp only
    rw [hq]
    dsimp only
    rw [foldl_apply_shape]
  refine ⟨_, hproc, by simp, by simpa using hp, ?_⟩
  unfold ConfidentialFlow.resume_confidential_hart_execution
  rw [hdummy]
  dsimp only [Bool.false_eq_true, if_false]
  rw [hproc]
  dsimp only [ConfidentialHart.take_request]
  rw [hp]
  simp

def sampleResumeHart : ConfidentialHart :=
  { confidential_vm_id := some ⟨0⟩, confidential_hart_id := 0,
    lifecycle_state := .Started, regs := [7, 8],
    pending_request := some .SbiRequest, applied_transformations := [] }

def sampleResumeVm : ConfidentialVm :=
  { id := ⟨0⟩, confidential_harts := [sampleResumeHart],
    inter_hart_requests := [[⟨.SbiIpi, [0]⟩, ⟨.SbiRemoteFenceI, [0]⟩]],
    measurements := [],
    memory_protector := { vm_state := { regs := [7, 8], valid_address_translation := true } } }

def sampleResumeState : MonitorState :=
  { hardware_hart := { confidential_hart := sampleResumeHart, mscratch := 5,
                       previous_mscratch := 11, hypervisor_result := 42 },
    control_data := { next_id := 1, confidential_vms := [(⟨0⟩, sampleResumeVm)] } }

/-- Witness for C1 at a concrete hart with two queued inter-hart requests
and a pending hypercall request. -/
theorem resume_applies_queued_requests_fifo_witness :
    ∃ st1 : MonitorState,
      ConfidentialFlow.process_inter_hart_requests sampleResumeState = some st1 ∧
      st1.hardware_hart.confidential_hart.applied_transformations =
        sampleResumeState.hardware_hart.confidential_hart.applied_transformations ++
          List.map InterHartRequest.into_expose_to_confidential_vm
            [⟨.SbiIpi, [0]⟩, ⟨.SbiRemoteFenceI, [0]⟩] ∧
      st1.hardware_hart.confidential_hart.pending_request = some .SbiRequest ∧
      ConfidentialFlow.resume_confidential_hart_execution sampleResumeState =
        some (ConfidentialFlow.resume_dispatch (some .SbiRequest)
          { st1 with hardware_hart := { st1.hardware_hart with confidential_hart :=
              { st1.hardware_hart.confidential_hart with pending_request := none } } }) :=
  resume_applies_queued_requests_fifo_before_pending sampleResumeState ⟨0⟩ sampleResumeVm
    [⟨.SbiIpi, [0]⟩, ⟨.SbiRemoteFenceI, [0]⟩] .SbiRequest
    (by rfl) (by rfl) (by rfl) (by rfl)

end AceRiscv

namespace AceRiscv

/-- C3: SharedPage::new succeeds if and only if the whole range
[address, address + page_size) lies within non-confidential memory; in
particular it fails when the start address is not a valid
non-confidential-memory address and when the offset probe at page_size - 1
falls outside non-confidential memory. -/
theorem sharedPage_new_ok_iff_range_in_non_confidential_memory
    (layout : MemoryLayout) (address : Nat) (request : SharePageRequest) :
    (SharedPage.new layout address request).isOk = true ↔
      rangeInNonConfidentialMemory layout address request.page_size.in_bytes := by
  have hpos := PageSize.in_bytes_pos request.page_size
  unfold SharedPage.new
  split
  case h_1 e heq =>
    simp only [MemoryLayout.is_in_non_confidential_range, NonConfidentialMemoryAddress.new,
      decide_eq_true_eq] at heq
    split at heq
    · exact absurd heq (by simp)
    · simp only [Except.isOk, Except.toBool, Bool.false_eq_true, false_iff,
        rangeInNonConfidentialMemory]
      rename_i hcond
      omega
  case h_2 a heq =>
    simp only [MemoryLayout.is_in_non_confidential_range, NonConfidentialMemoryAddress.new,
      decide_eq_true_eq] at heq
    split at heq
    case isTrue hcond =>
      cases heq
      split
      case h_1 e heq2 =>
        simp only [MemoryLayout.non_confidential_address_at_offset,
          NonConfidentialMemoryAddress.new, MemoryLayout.is_in_non_confidential_range,
          decide_eq_true_eq] at heq2
        split at heq2
        · exact absurd heq2 (by simp)
        · simp only [Except.isOk, Except.toBool, Bool.false_eq_true, false_iff,
            rangeInNonConfidentialMemory]
          rename_i hcond2
          omega
      case h_2 b heq2 =>
        simp only [MemoryLayout.non_confidential_address_at_offset,
          NonConfidentialMemoryAddress.new, MemoryLayout.is_in_non_confidential_range,
          decide_eq_true_eq] at heq2
        split at heq2
        · simp only [Except.isOk, Except.toBool, true_iff, rangeInNonConfidentialMemory]
          rename_i hcond2
          omega
        · exact absurd heq2 (by simp)
    case isFalse hcond =>
      exact absurd heq (by simp)

/-- C10: every successful SharedPage::new returns a page whose
non_confidential_address is the validated hypervisor address passed in,
whose confidential_vm_virtual_address is the request's confidential-VM
virtual address, and whose stored page size equals the request's page
size. -/
theorem sharedPage_new_accessor_roundtrip
    (layout : MemoryLayout) (address : Nat) (request : SharePageRequest)
    (page : SharedPage) (h : SharedPage.new layout address request = .ok page) :
    page.non_confidential_address = address ∧
    page.confidential_vm_virtual_address = request.confidential_vm_virtual_address ∧
    page.page_size = request.page_size := by
  unfold SharedPage.new at h
  split at h
  · cases h
  · rename_i a heq
    split at h
    · cases h
    · cases h
      have : a = address := by
        simp only [NonConfidentialMemoryAddress.new] at heq
        split at heq
        · cases heq; rfl
        · cases heq
      subst this
      exact ⟨rfl, rfl, rfl⟩

/-- Witness for C10 at a concrete layout, address and request. -/
theorem sharedPage_new_accessor_roundtrip_witness :
    (SharedPage.new ⟨4096, 1000000⟩ 8192 ⟨.Size4KiB, 77⟩).isOk = true ∧
    ((SharedPage.new ⟨4096, 1000000⟩ 8192 ⟨.Size4KiB, 77⟩ = .ok ⟨8192, 77, .Size4KiB⟩) ∧
      (SharedPage.non_confidential_address ⟨8192, 77, .Size4KiB⟩ = 8192 ∧
       SharedPage.confidential_vm_virtual_address ⟨8192, 77, .Size4KiB⟩ = 77 ∧
       SharedPage.page_size ⟨8192, 77, .Size4KiB⟩ = PageSize.Size4KiB)) := by
  refine ⟨by decide, by rfl, ?_⟩
  exact sharedPage_new_accessor_roundtrip ⟨4096, 1000000⟩ 8192 ⟨.Size4KiB, 77⟩
    ⟨8192, 77, .Size4KiB⟩ (by rfl)

end AceRiscv
